import Mathlib

/-!
Shallow embedding of the challan PDF generator service
(`config.py`, `utils.py`, `models.py`, `pdf_generator.py`, `main.py`)
and proofs of its specified properties.

Dates are modelled as Gregorian calendar triples with day-by-day
addition (mirroring `datetime` + `timedelta(days=n)`), text placement
as explicit lists of draw commands (mirroring ReportLab
`canvas.drawString` calls), and the HTTP layer as pure functions from
an explicit world (template file presence, template contents, clock)
to structured results.
-/

namespace Challan

/-! ## Calendar dates (model of `datetime.date` arithmetic) -/

structure Date where
  year : Nat
  month : Nat
  day : Nat
deriving DecidableEq, Repr

def isLeapYear (y : Nat) : Bool :=
  (y % 4 == 0 && y % 100 != 0) || (y % 400 == 0)

def daysInMonth (y m : Nat) : Nat :=
  if m == 2 then (if isLeapYear y then 29 else 28)
  else if m == 4 || m == 6 || m == 9 || m == 11 then 30
  else 31

def Date.Valid (d : Date) : Prop :=
  1 ≤ d.year ∧ 1 ≤ d.month ∧ d.month ≤ 12 ∧ 1 ≤ d.day ∧ d.day ≤ daysInMonth d.year d.month

instance (d : Date) : Decidable (Date.Valid d) := by
  unfold Date.Valid
  infer_instance

def nextDay (d : Date) : Date :=
  if d.day < daysInMonth d.year d.month then ⟨d.year, d.month, d.day + 1⟩
  else if d.month < 12 then ⟨d.year, d.month + 1, 1⟩
  else ⟨d.year + 1, 1, 1⟩

/-- Model of `date + timedelta(days = n)`. -/
def addDays (d : Date) : Nat → Date
  | 0 => d
  | n + 1 => nextDay (addDays d n)

theorem addDays_add (d : Date) (a b : Nat) :
    addDays d (a + b) = addDays (addDays d a) b := by
  induction b with
  | zero => rfl
  | succ k ih => rw [Nat.add_succ, addDays, addDays, ih]

/-! ## config.py constants -/

def TEMPLATE_PDF_PATH : String := "new_pdf.pdf"

def OUTPUT_DIRECTORY : String := "generated_pdfs"

def DATE_FORMAT : String := "%d-%m-%Y"

def INPUT_DATE_FORMAT : String := "%Y-%m-%d"

def FIRST_LATE_FEE_DAYS : Nat := 7

def SECOND_LATE_FEE_DAYS : Nat := 14

def FONT_NAME : String := "Helvetica-Bold"

def DEFAULT_FONT_SIZE : ℚ := 10

structure FieldCoords where
  y : ℚ
  x_positions : List ℚ
deriving DecidableEq, Repr

structure LateFeeCoords where
  row1_y : ℚ
  row2_y : ℚ
  row3_y : ℚ
  x_positions : List ℚ
  size : ℚ
deriving DecidableEq, Repr

structure Coordinates where
  challan_no : FieldCoords
  name : FieldCoords
  roll : FieldCoords
  class_ : FieldCoords
  expiry_date : FieldCoords
  late_fee_dates : LateFeeCoords
deriving DecidableEq, Repr

def COORDINATES : Coordinates :=
  { challan_no := ⟨571, [75, 350, 625]⟩
    name := ⟨460, [75, 350, 625]⟩
    roll := ⟨445, [75, 350, 625]⟩
    class_ := ⟨445, [205, 475, 750]⟩
    expiry_date := ⟨212, [142, 420, 696]⟩
    late_fee_dates := ⟨188, 173, 151.5, [220, 495, 770], 9⟩ }

/-! ## utils.py -/

def pad2 (n : Nat) : String :=
  if n < 10 then "0" ++ toString n else toString n

def pad4 (n : Nat) : String :=
  if n < 10 then "000" ++ toString n
  else if n < 100 then "00" ++ toString n
  else if n < 1000 then "0" ++ toString n
  else toString n

/-- Model of `date.strftime("%d-%m-%Y")` (utils.format_date). -/
def format_date (d : Date) : String :=
  pad2 d.day ++ "-" ++ pad2 d.month ++ "-" ++ pad4 d.year

/-- utils.calculate_late_fee_dates. -/
def calculate_late_fee_dates (first_expiry : Date) (first_days second_days : Nat) :
    String × String × String :=
  let second_expiry := addDays first_expiry first_days
  let third_expiry := addDays second_expiry second_days
  (format_date first_expiry, format_date second_expiry, format_date third_expiry)

/-- utils.generate_unique_filename: always returns
`os.path.join(OUTPUT_DIRECTORY, "output.pdf")`; the argument is unused
in the source as well. -/
def generate_unique_filename (challan_no : String) : String :=
  let filename := "output.pdf"
  OUTPUT_DIRECTORY ++ "/" ++ filename

/-! ## Input date parsing (model of `datetime.strptime(v, "%Y-%m-%d")`)

CPython compiles the format through `_strptime.TimeRE` into the regex
`(?P<Y>\d\d\d\d)-(?P<m>1[0-2]|0[1-9]|[1-9])-(?P<d>3[0-1]|[1-2]\d|0[1-9]|[1-9]| [1-9])`,
matched from the start of the string without the ASCII flag, and then
raises ValueError when the match fails, when unconverted data remains,
or when `datetime(year, month, day)` rejects the values (year 0, or a
day beyond the length of the month).  In this regex `\d` matches every
Unicode Nd decimal digit, while the bracket classes and the literal
digits are ASCII only; the captured groups are converted with `int`,
which maps each Nd digit to its decimal value.  The parser below
mirrors that regex alternation by alternation; the alternations were
checked to be prefix-disjoint from their continuations, so ordered
first-match parsing coincides with regex backtracking. -/

/-- The starts of the 66 runs of the Unicode 14.0 Nd category; each run
holds the digits 0 to 9 at consecutive code points. -/
def ndRunStarts : List Nat :=
  [48, 1632, 1776, 1984, 2406, 2534, 2662, 2790, 2918, 3046, 3174, 3302,
   3430, 3558, 3664, 3792, 3872, 4160, 4240, 6112, 6160, 6470, 6608, 6784,
   6800, 6992, 7088, 7232, 7248, 42528, 43216, 43264, 43472, 43504, 43600,
   44016, 65296, 66720, 68912, 69734, 69872, 69942, 70096, 70384, 70736,
   70864, 71248, 71360, 71472, 71904, 72016, 72784, 73040, 73120, 92768,
   92864, 93008, 120782, 120792, 120802, 120812, 120822, 123200, 123632,
   125264, 130032]

/-- The decimal value of a Unicode Nd digit (what `\d` matches and what
`int` maps it to), `none` for every other character. -/
def decDigitVal (c : Char) : Option Nat :=
  match ndRunStarts.find? (fun s => decide (s ≤ c.toNat) && decide (c.toNat < s + 10)) with
  | some s => some (c.toNat - s)
  | none => none

/-- ASCII code-point range test for the bracket classes of the regex. -/
def isAsciiBetween (c : Char) (lo hi : Nat) : Bool :=
  decide (lo ≤ c.toNat) && decide (c.toNat ≤ hi)

def asciiVal (c : Char) : Nat :=
  c.toNat - 48

/-- The `%Y` group `\d\d\d\d`: exactly four Nd digits. -/
def parseYear : List Char → Option (Nat × List Char)
  | c1 :: c2 :: c3 :: c4 :: rest =>
    match decDigitVal c1, decDigitVal c2, decDigitVal c3, decDigitVal c4 with
    | some a, some b, some c, some d => some (a * 1000 + b * 100 + c * 10 + d, rest)
    | _, _, _, _ => none
  | _ => none

/-- The `%m` group `1[0-2]|0[1-9]|[1-9]` (ASCII only). -/
def parseMonth : List Char → Option (Nat × List Char)
  | c1 :: c2 :: rest =>
    if c1 = '1' ∧ isAsciiBetween c2 48 50 = true then some (10 + asciiVal c2, rest)
    else if c1 = '0' ∧ isAsciiBetween c2 49 57 = true then some (asciiVal c2, rest)
    else if isAsciiBetween c1 49 57 = true then some (asciiVal c1, c2 :: rest)
    else none
  | [c1] =>
    if isAsciiBetween c1 49 57 = true then some (asciiVal c1, []) else none
  | [] => none

/-- The `%d` group `3[0-1]|[1-2]\d|0[1-9]|[1-9]| [1-9]`: the second
character of the `[1-2]\d` alternative may be any Nd digit, and the
last alternative allows a space before a single digit. -/
def parseDay : List Char → Option (Nat × List Char)
  | c1 :: c2 :: rest =>
    if c1 = '3' ∧ isAsciiBetween c2 48 49 = true then some (30 + asciiVal c2, rest)
    else if isAsciiBetween c1 49 50 = true ∧ (decDigitVal c2).isSome = true then
      some (asciiVal c1 * 10 + (decDigitVal c2).getD 0, rest)
    else if c1 = '0' ∧ isAsciiBetween c2 49 57 = true then some (asciiVal c2, rest)
    else if isAsciiBetween c1 49 57 = true then some (asciiVal c1, c2 :: rest)
    else if c1 = Char.ofNat 32 ∧ isAsciiBetween c2 49 57 = true then some (asciiVal c2, rest)
    else none
  | [c1] =>
    if isAsciiBetween c1 49 57 = true then some (asciiVal c1, []) else none
  | [] => none

/-- Model of `datetime.strptime(s, "%Y-%m-%d")`: the TimeRE regex above
matched against the whole string, followed by the `datetime`
constructor checks (year at least MINYEAR = 1, day within the length of
the month; year at most 9999 is implied by the four-digit group). -/
def strptime_Ymd (s : String) : Option Date :=
  match parseYear s.data with
  | some (y, r1) =>
    match r1 with
    | c :: r2 =>
      if c = '-' then
        match parseMonth r2 with
        | some (m, r3) =>
          match r3 with
          | c2 :: r4 =>
            if c2 = '-' then
              match parseDay r4 with
              | some (d, r5) =>
                if r5 = [] ∧ 1 ≤ y ∧ d ≤ daysInMonth y m then some ⟨y, m, d⟩
                else none
              | none => none
            else none
          | [] => none
        | none => none
      else none
    | [] => none
  | none => none

/-! ## pdf_generator.py -/

/-- One ReportLab text-drawing call: `setFont(font, size)` followed by
`drawString(x, y, text)`. -/
structure DrawCmd where
  text : String
  x : ℚ
  y : ℚ
  font : String
  size : ℚ
deriving DecidableEq, Repr

/-- PDFGenerator._draw_text. -/
def draw_text (text : String) (x y size : ℚ) : DrawCmd :=
  ⟨text, x, y, FONT_NAME, size⟩

/-- PDFGenerator._draw_challan_no. -/
def draw_challan_no (coords : Coordinates) (number : String) : List DrawCmd :=
  coords.challan_no.x_positions.map
    (fun x => draw_text number x coords.challan_no.y DEFAULT_FONT_SIZE)

/-- PDFGenerator._draw_name. -/
def draw_name (coords : Coordinates) (name : String) : List DrawCmd :=
  coords.name.x_positions.map
    (fun x => draw_text name x coords.name.y DEFAULT_FONT_SIZE)

/-- PDFGenerator._draw_roll. -/
def draw_roll (coords : Coordinates) (roll : String) : List DrawCmd :=
  coords.roll.x_positions.map
    (fun x => draw_text roll x coords.roll.y DEFAULT_FONT_SIZE)

/-- PDFGenerator._draw_class. -/
def draw_class (coords : Coordinates) (class_name : String) : List DrawCmd :=
  coords.class_.x_positions.map
    (fun x => draw_text class_name x coords.class_.y DEFAULT_FONT_SIZE)

/-- PDFGenerator._draw_expiry_dates. -/
def draw_expiry_dates (coords : Coordinates) (date : String) : List DrawCmd :=
  coords.expiry_date.x_positions.map
    (fun x => draw_text date x coords.expiry_date.y DEFAULT_FONT_SIZE)

/-- PDFGenerator._draw_late_fee_dates: three rows, each repeated at the
three configured horizontal positions. -/
def draw_late_fee_dates (coords : Coordinates) (date1 date2 date3 : String) :
    List DrawCmd :=
  let cfg := coords.late_fee_dates
  cfg.x_positions.map (fun x => draw_text date1 x cfg.row1_y cfg.size) ++
  cfg.x_positions.map (fun x => draw_text date2 x cfg.row2_y cfg.size) ++
  cfg.x_positions.map (fun x => draw_text date3 x cfg.row3_y cfg.size)

/-- The "# Draw all content" block of PDFGenerator.generate: the exact
sequence of drawing calls made on the overlay canvas, given the parsed
first expiry date.  Note the source passes `f2, f3, f3` to
`_draw_late_fee_dates` (the third row reuses `f3`). -/
def overlayContent (challan_no student_name roll_number class_name : String)
    (first_expiry : Date) : List DrawCmd :=
  let fs := calculate_late_fee_dates first_expiry FIRST_LATE_FEE_DAYS SECOND_LATE_FEE_DAYS
  draw_challan_no COORDINATES challan_no ++
  draw_name COORDINATES student_name ++
  draw_roll COORDINATES roll_number ++
  draw_class COORDINATES class_name ++
  draw_expiry_dates COORDINATES fs.1 ++
  draw_late_fee_dates COORDINATES fs.2.1 fs.2.2 fs.2.2

/-- The mediabox of one template page. -/
structure PageBox where
  width : ℚ
  height : ℚ
deriving DecidableEq, Repr

/-- A template PDF as read by PdfReader: its list of pages. -/
structure PdfTemplate where
  pages : List PageBox
deriving DecidableEq, Repr

/-- The overlay PDF produced by the ReportLab canvas: its page size and
the text drawn on it. -/
structure OverlayPage where
  width : ℚ
  height : ℚ
  cmds : List DrawCmd
deriving DecidableEq, Repr

/-- One page of the output writer: a blank page created with the given
width/height, onto which the template page (`base`) is merged first and
the overlay second. -/
structure MergedPage where
  width : ℚ
  height : ℚ
  base : PageBox
  overlay : OverlayPage
deriving DecidableEq, Repr

structure OutputDoc where
  pages : List MergedPage
deriving DecidableEq, Repr

inductive GenError where
  /-- `raise ValueError(...)` on a date that strptime rejects. -/
  | invalidDate (msg : String)
  /-- `reader.pages[0]` raising IndexError on a template with no pages. -/
  | noPages
deriving DecidableEq, Repr

/-- PDFGenerator.generate: read the first template page, take its
mediabox dimensions, build the overlay canvas at that size, parse the
expiry date (ValueError on failure, before any drawing), draw all
content, and merge template page and overlay onto a blank page of the
same dimensions. -/
def generate (template : PdfTemplate)
    (challan_no student_name roll_number class_name expiry_date_str : String) :
    Except GenError OutputDoc :=
  match template.pages with
  | [] => Except.error GenError.noPages
  | original_page :: _ =>
    match strptime_Ymd expiry_date_str with
    | none => Except.error (GenError.invalidDate ("Invalid date format. Use " ++ INPUT_DATE_FORMAT))
    | some first_expiry =>
      let cmds := overlayContent challan_no student_name roll_number class_name first_expiry
      let overlay : OverlayPage := ⟨original_page.width, original_page.height, cmds⟩
      let merged : MergedPage := ⟨original_page.width, original_page.height, original_page, overlay⟩
      Except.ok ⟨[merged]⟩

/-- The draw commands of the first output page, `[]` when generation
failed (no drawing is part of a failed result). -/
def overlayCmdsOf : Except GenError OutputDoc → List DrawCmd
  | Except.ok doc =>
    match doc.pages with
    | [] => []
    | m :: _ => m.overlay.cmds
  | Except.error _ => []

def isGenerated : Except GenError OutputDoc → Bool
  | Except.ok _ => true
  | Except.error _ => false

def pagesCountOf : Except GenError OutputDoc → Nat
  | Except.ok doc => doc.pages.length
  | Except.error _ => 0

theorem generate_eq_ok (t : PdfTemplate) (p : PageBox) (rest : List PageBox)
    (c n r k e : String) (d : Date)
    (h1 : t.pages = p :: rest) (h2 : strptime_Ymd e = some d) :
    generate t c n r k e =
      Except.ok ⟨[⟨p.width, p.height, p, ⟨p.width, p.height, overlayContent c n r k d⟩⟩]⟩ := by
  unfold generate
  rw [h1, h2]

/-! ## models.py -/

structure PDFRequest where
  challan_no : String
  student_name : String
  roll_number : String
  class_name : String
  expiry_date : String
deriving DecidableEq, Repr

/-- The `validate_date_format` validator of models.PDFRequest:
`datetime.strptime(v, "%Y-%m-%d")` must succeed. -/
def validate_date_format (v : String) : Bool :=
  (strptime_Ymd v).isSome

/-- Full pydantic validation of models.PDFRequest: each string field
has `min_length=1` and its `max_length`, and the expiry date passes the
`validate_date_format` validator. -/
def validatePDFRequest (r : PDFRequest) : Bool :=
  decide (1 ≤ r.challan_no.length ∧ r.challan_no.length ≤ 50) &&
  decide (1 ≤ r.student_name.length ∧ r.student_name.length ≤ 100) &&
  decide (1 ≤ r.roll_number.length ∧ r.roll_number.length ≤ 50) &&
  decide (1 ≤ r.class_name.length ∧ r.class_name.length ≤ 50) &&
  validate_date_format r.expiry_date

structure HealthResponse where
  status : String
  template_available : Bool
  timestamp : String
deriving DecidableEq, Repr

/-! ## main.py -/

/-- The ambient state the endpoints can observe: whether the template
file exists on disk, the template contents, and the current clock
(`datetime.now().isoformat()`). -/
structure World where
  template_exists : Bool
  template : PdfTemplate
  now : String
deriving DecidableEq, Repr

/-- utils.validate_template_exists applied to TEMPLATE_PDF_PATH
(`os.path.exists`). -/
def validate_template_exists (w : World) : Bool :=
  w.template_exists

/-- A single apostrophe character, as it appears inside the f-string
details of main.py. -/
def sq : String := String.singleton (Char.ofNat 39)

inductive ApiResult where
  /-- A pydantic RequestValidationError, raised by the framework before
  the endpoint body runs (422). -/
  | validationError
  /-- An HTTPException with status code and detail. -/
  | httpError (status : Nat) (detail : String)
  /-- A Response with PDF content, media type and Content-Disposition
  header. -/
  | pdfResponse (doc : OutputDoc) (media_type : String) (content_disposition : String)
deriving DecidableEq, Repr

/-- main.health_check. -/
def health_check (w : World) : HealthResponse :=
  { status := if validate_template_exists w then "healthy" else "degraded"
    template_available := validate_template_exists w
    timestamp := w.now }

/-- main.generate_pdf_endpoint, including the framework request
validation that runs before the body: template-existence check (500),
then generation, mapping ValueError to 400 and any other exception to a
500 with an "Error generating PDF:" detail. -/
def generate_pdf_endpoint (w : World) (request : PDFRequest) : ApiResult :=
  if validatePDFRequest request then
    if validate_template_exists w then
      match generate w.template request.challan_no request.student_name
          request.roll_number request.class_name request.expiry_date with
      | Except.ok doc =>
        ApiResult.pdfResponse doc "application/pdf" "attachment; filename=output.pdf"
      | Except.error (GenError.invalidDate msg) => ApiResult.httpError 400 msg
      | Except.error GenError.noPages =>
        ApiResult.httpError 500 "Error generating PDF: list index out of range"
    else
      ApiResult.httpError 500
        ("Template PDF " ++ sq ++ TEMPLATE_PDF_PATH ++ sq ++ " not found")
  else ApiResult.validationError

/-- main.generate_sample_pdf: fixed demo values; every exception inside
the body maps to a 500. -/
def generate_sample_pdf (w : World) : ApiResult :=
  if validate_template_exists w then
    match generate w.template "22" "Adeel Ahmed" "232201010" "BSCS-5-A" "2025-05-20" with
    | Except.ok doc =>
      ApiResult.pdfResponse doc "application/pdf" "attachment; filename=output.pdf"
    | Except.error (GenError.invalidDate msg) =>
      ApiResult.httpError 500 ("Error generating sample PDF: " ++ msg)
    | Except.error GenError.noPages =>
      ApiResult.httpError 500 "Error generating sample PDF: list index out of range"
  else
    ApiResult.httpError 500
      ("Template PDF " ++ sq ++ TEMPLATE_PDF_PATH ++ sq ++ " not found")

/-- The Content-Disposition header of a successful response. -/
def attachmentHeader : ApiResult → Option String
  | ApiResult.pdfResponse _ _ cd => some cd
  | _ => none

/-! ## main.py persistence routes (ChallanSchema and delete_challan) -/

structure ChallanRecord where
  challan_no : String
  student_name : String
  roll_number : String
  class_name : String
  email : String
  expiry_date : String
  status : String
  created_at : String
deriving DecidableEq, Repr

inductive DeleteResult where
  /-- HTTPException(status_code=404, detail=...). -/
  | notFound (status : Nat) (detail : String)
  /-- The success message body. -/
  | ok (message : String)
deriving DecidableEq, Repr

/-- main.delete_challan: `delete_many({"email": email})` on the stored
records, then 404 when `deleted_count == 0`, else a message reporting
the count.  Returns the result together with the collection after the
deletion. -/
def delete_challan (email : String) (db : List ChallanRecord) :
    DeleteResult × List ChallanRecord :=
  let deleted_count := db.countP (fun rec => rec.email == email)
  let remaining := db.filter (fun rec => rec.email != email)
  if deleted_count = 0 then
    (DeleteResult.notFound 404 ("No challan found for email: " ++ email), db)
  else
    (DeleteResult.ok ("Deleted " ++ toString deleted_count ++ " record(s) for email: " ++ email),
     remaining)

theorem length_filter_not_add_countP (l : List ChallanRecord) (p : ChallanRecord → Bool) :
    (l.filter (fun a => !(p a))).length + l.countP p = l.length := by
  induction l with
  | nil => rfl
  | cons a t ih =>
    cases hpa : p a <;>
      simp only [List.filter_cons, List.countP_cons, hpa, Bool.not_false, Bool.not_true,
        if_true, if_false, List.length_cons, Bool.false_eq_true, ite_true, ite_false] <;>
      omega

/-! ## Concrete sample values used by the witnesses -/

def pbA : PageBox := ⟨612, 792⟩

def pbB : PageBox := ⟨200, 300⟩

/-- A two-page template, to exercise claims that must hold regardless
of the number of template pages. -/
def tmplA : PdfTemplate := ⟨[pbA, pbB]⟩

def dA : Date := ⟨2025, 5, 20⟩

def reqA : PDFRequest := ⟨"22", "Adeel Ahmed", "232201010", "BSCS-5-A", "2025-05-20"⟩

def wA : World := ⟨true, tmplA, "2025-01-01T00:00:00"⟩

def wB : World := ⟨true, tmplA, "2026-12-31T23:59:59"⟩

def wMissing : World := ⟨false, tmplA, "2025-01-01T00:00:00"⟩

/-! ## Claims -/

/-- C1: for every valid expiry date `d` and the configured offsets
FIRST_LATE_FEE_DAYS = 7 and SECOND_LATE_FEE_DAYS = 14,
calculate_late_fee_dates returns three DD-MM-YYYY strings:
tier1 = format(d), tier2 = format(d + 7 days),
tier3 = format(d + 7 + 14 days). -/
theorem late_fee_dates_ladder (d : Date) (h : d.Valid) :
    FIRST_LATE_FEE_DAYS = 7 ∧ SECOND_LATE_FEE_DAYS = 14 ∧
    calculate_late_fee_dates d FIRST_LATE_FEE_DAYS SECOND_LATE_FEE_DAYS =
      (format_date d, format_date (addDays d 7), format_date (addDays d (7 + 14))) := by
  refine ⟨rfl, rfl, ?_⟩
  rw [addDays_add]
  rfl

/-- Witness for C1: the example input 2025-05-20 yields the tier dates
20-05-2025, 27-05-2025, 10-06-2025. -/
theorem late_fee_dates_ladder_witness :
    Date.Valid ⟨2025, 5, 20⟩ ∧
    calculate_late_fee_dates ⟨2025, 5, 20⟩ FIRST_LATE_FEE_DAYS SECOND_LATE_FEE_DAYS =
      ("20-05-2025", "27-05-2025", "10-06-2025") :=
  ⟨by decide, ((late_fee_dates_ladder ⟨2025, 5, 20⟩ (by decide)).2.2).trans rfl⟩

/-- C2: on every valid input the late-fee block of the generated
overlay (draw commands 16 through 24) shows, row by row, the dates
expiry + 7 days, expiry + 21 days and expiry + 21 days; in particular
the texts of the third display row coincide with the texts of the
second display row, and no third day offset is ever applied. -/
theorem late_fee_third_row_reuses_second (t : PdfTemplate) (p : PageBox)
    (rest : List PageBox) (c n r k e : String) (d : Date)
    (h1 : t.pages = p :: rest) (h2 : strptime_Ymd e = some d) :
    overlayCmdsOf (generate t c n r k e) = overlayContent c n r k d ∧
    (overlayContent c n r k d).drop 15 =
      [⟨format_date (addDays d 7), 220, 188, FONT_NAME, 9⟩,
       ⟨format_date (addDays d 7), 495, 188, FONT_NAME, 9⟩,
       ⟨format_date (addDays d 7), 770, 188, FONT_NAME, 9⟩,
       ⟨format_date (addDays d 21), 220, 173, FONT_NAME, 9⟩,
       ⟨format_date (addDays d 21), 495, 173, FONT_NAME, 9⟩,
       ⟨format_date (addDays d 21), 770, 173, FONT_NAME, 9⟩,
       ⟨format_date (addDays d 21), 220, 151.5, FONT_NAME, 9⟩,
       ⟨format_date (addDays d 21), 495, 151.5, FONT_NAME, 9⟩,
       ⟨format_date (addDays d 21), 770, 151.5, FONT_NAME, 9⟩] ∧
    (((overlayContent c n r k d).drop 15).drop 6).map DrawCmd.text =
      ((((overlayContent c n r k d).drop 15).drop 3).take 3).map DrawCmd.text := by
  refine ⟨?_, ?_, rfl⟩
  · rw [generate_eq_ok t p rest c n r k e d h1 h2]
    rfl
  · have h217 : (21 : Nat) = 7 + 14 := by norm_num
    rw [h217, addDays_add]
    rfl

/-- Witness for C2 at the sample input. -/
theorem late_fee_third_row_reuses_second_witness :
    tmplA.pages = pbA :: [pbB] ∧
    strptime_Ymd "2025-05-20" = some dA ∧
    (((overlayContent "22" "Adeel Ahmed" "232201010" "BSCS-5-A" dA).drop 15).drop 6).map DrawCmd.text =
      ((((overlayContent "22" "Adeel Ahmed" "232201010" "BSCS-5-A" dA).drop 15).drop 3).take 3).map DrawCmd.text :=
  ⟨rfl, rfl,
    (late_fee_third_row_reuses_second tmplA pbA [pbB] "22" "Adeel Ahmed" "232201010"
      "BSCS-5-A" "2025-05-20" dA rfl rfl).2.2⟩

/-- C3: on every valid five-field input the overlay consists of exactly
24 draw commands: challan_no, name, roll and class each drawn exactly 3
times at the single configured vertical position of the field and at
its 3 configured horizontal positions, the expiry date 3 times, and the
late-fee block exactly 9 draws (3 rows at 3 horizontal slots). -/
theorem overlay_draw_counts (t : PdfTemplate) (p : PageBox)
    (rest : List PageBox) (c n r k e : String) (d : Date)
    (h1 : t.pages = p :: rest) (h2 : strptime_Ymd e = some d) :
    overlayCmdsOf (generate t c n r k e) = overlayContent c n r k d ∧
    overlayContent c n r k d =
      [⟨c, 75, 571, FONT_NAME, 10⟩, ⟨c, 350, 571, FONT_NAME, 10⟩, ⟨c, 625, 571, FONT_NAME, 10⟩,
       ⟨n, 75, 460, FONT_NAME, 10⟩, ⟨n, 350, 460, FONT_NAME, 10⟩, ⟨n, 625, 460, FONT_NAME, 10⟩,
       ⟨r, 75, 445, FONT_NAME, 10⟩, ⟨r, 350, 445, FONT_NAME, 10⟩, ⟨r, 625, 445, FONT_NAME, 10⟩,
       ⟨k, 205, 445, FONT_NAME, 10⟩, ⟨k, 475, 445, FONT_NAME, 10⟩, ⟨k, 750, 445, FONT_NAME, 10⟩,
       ⟨format_date d, 142, 212, FONT_NAME, 10⟩, ⟨format_date d, 420, 212, FONT_NAME, 10⟩,
       ⟨format_date d, 696, 212, FONT_NAME, 10⟩,
       ⟨format_date (addDays d 7), 220, 188, FONT_NAME, 9⟩,
       ⟨format_date (addDays d 7), 495, 188, FONT_NAME, 9⟩,
       ⟨format_date (addDays d 7), 770, 188, FONT_NAME, 9⟩,
       ⟨format_date (addDays d 21), 220, 173, FONT_NAME, 9⟩,
       ⟨format_date (addDays d 21), 495, 173, FONT_NAME, 9⟩,
       ⟨format_date (addDays d 21), 770, 173, FONT_NAME, 9⟩,
       ⟨format_date (addDays d 21), 220, 151.5, FONT_NAME, 9⟩,
       ⟨format_date (addDays d 21), 495, 151.5, FONT_NAME, 9⟩,
       ⟨format_date (addDays d 21), 770, 151.5, FONT_NAME, 9⟩] ∧
    (draw_late_fee_dates COORDINATES (format_date (addDays d 7))
        (format_date (addDays d 21)) (format_date (addDays d 21))).length = 9 := by
  have h217 : (21 : Nat) = 7 + 14 := by norm_num
  refine ⟨?_, ?_, ?_⟩
  · rw [generate_eq_ok t p rest c n r k e d h1 h2]
    rfl
  · rw [h217, addDays_add]
    rfl
  · rw [h217, addDays_add]
    rfl

/-- Witness for C3 at the sample input. -/
theorem overlay_draw_counts_witness :
    tmplA.pages = pbA :: [pbB] ∧
    strptime_Ymd "2025-05-20" = some dA ∧
    (draw_late_fee_dates COORDINATES (format_date (addDays dA 7))
        (format_date (addDays dA 21)) (format_date (addDays dA 21))).length = 9 :=
  ⟨rfl, rfl,
    (overlay_draw_counts tmplA pbA [pbB] "22" "Adeel Ahmed" "232201010"
      "BSCS-5-A" "2025-05-20" dA rfl rfl).2.2⟩

/-- C4: for every template whose first page has width w and height h,
a successful generate call returns a single merged page of exactly that
width and height, whose overlay canvas was also sized w by h, layered
template page first and overlay second. -/
theorem merge_preserves_dimensions (t : PdfTemplate) (p : PageBox)
    (rest : List PageBox) (c n r k e : String) (d : Date)
    (h1 : t.pages = p :: rest) (h2 : strptime_Ymd e = some d) :
    generate t c n r k e =
      Except.ok ⟨[⟨p.width, p.height, p, ⟨p.width, p.height, overlayContent c n r k d⟩⟩]⟩ :=
  generate_eq_ok t p rest c n r k e d h1 h2

/-- Witness for C4 at the sample input. -/
theorem merge_preserves_dimensions_witness :
    tmplA.pages = pbA :: [pbB] ∧
    strptime_Ymd "2025-05-20" = some dA ∧
    generate tmplA "22" "Adeel Ahmed" "232201010" "BSCS-5-A" "2025-05-20" =
      Except.ok ⟨[⟨pbA.width, pbA.height, pbA,
        ⟨pbA.width, pbA.height, overlayContent "22" "Adeel Ahmed" "232201010" "BSCS-5-A" dA⟩⟩]⟩ :=
  ⟨rfl, rfl,
    merge_preserves_dimensions tmplA pbA [pbB] "22" "Adeel Ahmed" "232201010"
      "BSCS-5-A" "2025-05-20" dA rfl rfl⟩

/-- C5: for every request whose expiry_date does not parse under
%Y-%m-%d, the endpoint answers with the validation-error kind (the
pydantic 422, distinct from the httpError kinds used for template and
rendering failures), the generator never produces a document, and no
draw command is part of the result. -/
theorem malformed_date_validation_error (w : World) (c n r k e : String)
    (h : strptime_Ymd e = none) :
    generate_pdf_endpoint w ⟨c, n, r, k, e⟩ = ApiResult.validationError ∧
    isGenerated (generate w.template c n r k e) = false ∧
    overlayCmdsOf (generate w.template c n r k e) = [] := by
  have hv : validatePDFRequest ⟨c, n, r, k, e⟩ = false := by
    simp [validatePDFRequest, validate_date_format, h]
  refine ⟨?_, ?_, ?_⟩
  · simp [generate_pdf_endpoint, hv]
  · rcases hpp : w.template.pages with _ | ⟨p0, rest0⟩ <;>
      simp [generate, hpp, h, isGenerated]
  · rcases hpp : w.template.pages with _ | ⟨p0, rest0⟩ <;>
      simp [generate, hpp, h, overlayCmdsOf]

/-- Witness for C5 at the malformed input 2025-13-40. -/
theorem malformed_date_validation_error_witness :
    strptime_Ymd "2025-13-40" = none ∧
    generate_pdf_endpoint wA ⟨"22", "Adeel Ahmed", "232201010", "BSCS-5-A", "2025-13-40"⟩ =
      ApiResult.validationError ∧
    isGenerated (generate wA.template "22" "Adeel Ahmed" "232201010" "BSCS-5-A" "2025-13-40") = false ∧
    overlayCmdsOf (generate wA.template "22" "Adeel Ahmed" "232201010" "BSCS-5-A" "2025-13-40") = [] :=
  ⟨rfl, malformed_date_validation_error wA "22" "Adeel Ahmed" "232201010" "BSCS-5-A" "2025-13-40" rfl⟩

/-- C6: when the template file is missing the health probe reports
degraded with template_available false (and healthy with true when it
exists), and every generation call on a validated request fails with
the configuration-error kind: a 500 HTTPException whose detail says the
template was not found. -/
theorem missing_template_degraded (w w2 : World) (r : PDFRequest)
    (h : w.template_exists = false) (h2 : w2.template_exists = true)
    (hr : validatePDFRequest r = true) :
    health_check w = ⟨"degraded", false, w.now⟩ ∧
    health_check w2 = ⟨"healthy", true, w2.now⟩ ∧
    generate_pdf_endpoint w r =
      ApiResult.httpError 500 ("Template PDF " ++ sq ++ TEMPLATE_PDF_PATH ++ sq ++ " not found") ∧
    generate_sample_pdf w =
      ApiResult.httpError 500 ("Template PDF " ++ sq ++ TEMPLATE_PDF_PATH ++ sq ++ " not found") := by
  refine ⟨?_, ?_, ?_, ?_⟩ <;>
    simp [health_check, validate_template_exists, generate_pdf_endpoint,
      generate_sample_pdf, h, h2, hr]

/-- Witness for C6: a world without the template file, a world with it,
and a valid request. -/
theorem missing_template_degraded_witness :
    wMissing.template_exists = false ∧
    wA.template_exists = true ∧
    validatePDFRequest reqA = true ∧
    health_check wMissing = ⟨"degraded", false, "2025-01-01T00:00:00"⟩ ∧
    health_check wA = ⟨"healthy", true, "2025-01-01T00:00:00"⟩ ∧
    generate_pdf_endpoint wMissing reqA =
      ApiResult.httpError 500 ("Template PDF " ++ sq ++ TEMPLATE_PDF_PATH ++ sq ++ " not found") ∧
    generate_sample_pdf wMissing =
      ApiResult.httpError 500 ("Template PDF " ++ sq ++ TEMPLATE_PDF_PATH ++ sq ++ " not found") :=
  ⟨rfl, rfl, by decide,
    (missing_template_degraded wMissing wA reqA rfl rfl (by decide)).1,
    (missing_template_degraded wMissing wA reqA rfl rfl (by decide)).2.1,
    (missing_template_degraded wMissing wA reqA rfl rfl (by decide)).2.2.1,
    (missing_template_degraded wMissing wA reqA rfl rfl (by decide)).2.2.2⟩

/-- C7: generation is a pure function of the five field values and the
template: two worlds that agree on the template file and its contents
but may differ in everything else (in particular the clock) produce
identical endpoint results, for the generation endpoint and the sample
endpoint alike; no retry or state mutation exists in the model. -/
theorem generation_deterministic (w1 w2 : World) (r : PDFRequest)
    (ht : w1.template = w2.template) (he : w1.template_exists = w2.template_exists) :
    generate_pdf_endpoint w1 r = generate_pdf_endpoint w2 r ∧
    generate_sample_pdf w1 = generate_sample_pdf w2 := by
  obtain ⟨e1, t1, n1⟩ := w1
  obtain ⟨e2, t2, n2⟩ := w2
  dsimp only at ht he
  subst ht
  subst he
  exact ⟨rfl, rfl⟩

/-- Witness for C7: two worlds with the same template but different
clocks. -/
theorem generation_deterministic_witness :
    wA.template = wB.template ∧
    wA.template_exists = wB.template_exists ∧
    generate_pdf_endpoint wA reqA = generate_pdf_endpoint wB reqA ∧
    generate_sample_pdf wA = generate_sample_pdf wB :=
  ⟨rfl, rfl,
    (generation_deterministic wA wB reqA rfl rfl).1,
    (generation_deterministic wA wB reqA rfl rfl).2⟩

/-- C8: the attachment filename of every successful response is the
constant "attachment; filename=output.pdf" regardless of any input
field, and the filename-producing helper ignores its challan_no
argument, always returning generated_pdfs/output.pdf. -/
theorem fixed_attachment_filename :
    (∀ a b : String, generate_unique_filename a = generate_unique_filename b) ∧
    (∀ a : String, generate_unique_filename a = "generated_pdfs/output.pdf") ∧
    (∀ (w : World) (r : PDFRequest),
      attachmentHeader (generate_pdf_endpoint w r) = none ∨
      attachmentHeader (generate_pdf_endpoint w r) = some "attachment; filename=output.pdf") ∧
    (∀ w : World,
      attachmentHeader (generate_sample_pdf w) = none ∨
      attachmentHeader (generate_sample_pdf w) = some "attachment; filename=output.pdf") := by
  refine ⟨fun a b => rfl, fun a => rfl, fun w r => ?_, fun w => ?_⟩
  · unfold generate_pdf_endpoint
    split
    · split
      · split <;> simp [attachmentHeader]
      · simp [attachmentHeader]
    · simp [attachmentHeader]
  · unfold generate_sample_pdf
    split
    · split <;> simp [attachmentHeader]
    · simp [attachmentHeader]

/-- C9: deleting by an email that matches zero records returns the 404
not-found result and leaves the collection unchanged; deleting by an
email with N matching records removes exactly those N records (none
remain, the length drops by N) and the success message reports N. -/
theorem delete_challan_by_email (email : String) (db : List ChallanRecord) :
    delete_challan email db =
      (if db.countP (fun rec => rec.email == email) = 0 then
        (DeleteResult.notFound 404 ("No challan found for email: " ++ email), db)
      else
        (DeleteResult.ok ("Deleted " ++ toString (db.countP (fun rec => rec.email == email)) ++
            " record(s) for email: " ++ email),
         db.filter (fun rec => rec.email != email))) ∧
    (db.filter (fun rec => rec.email != email)).countP (fun rec => rec.email == email) = 0 ∧
    (db.filter (fun rec => rec.email != email)).length +
      db.countP (fun rec => rec.email == email) = db.length := by
  refine ⟨rfl, ?_, ?_⟩
  · rw [List.countP_eq_zero]
    intro a ha
    rw [List.mem_filter, bne_iff_ne] at ha
    simp only [beq_iff_eq]
    exact ha.2
  · exact length_filter_not_add_countP db (fun rec => rec.email == email)

/-- C10: regardless of how many pages the template has, every
successful generate call yields a document with exactly one page (only
the first template page is read and a single merged page is written). -/
theorem output_single_page (t : PdfTemplate) (p : PageBox) (rest : List PageBox)
    (c n r k e : String) (d : Date)
    (h1 : t.pages = p :: rest) (h2 : strptime_Ymd e = some d) :
    isGenerated (generate t c n r k e) = true ∧
    pagesCountOf (generate t c n r k e) = 1 := by
  rw [generate_eq_ok t p rest c n r k e d h1 h2]
  exact ⟨rfl, rfl⟩

/-- Witness for C10: a two-page template still yields a one-page
output. -/
theorem output_single_page_witness :
    tmplA.pages = pbA :: [pbB] ∧
    strptime_Ymd "2025-05-20" = some dA ∧
    isGenerated (generate tmplA "22" "Adeel Ahmed" "232201010" "BSCS-5-A" "2025-05-20") = true ∧
    pagesCountOf (generate tmplA "22" "Adeel Ahmed" "232201010" "BSCS-5-A" "2025-05-20") = 1 :=
  ⟨rfl, rfl,
    (output_single_page tmplA pbA [pbB] "22" "Adeel Ahmed" "232201010"
      "BSCS-5-A" "2025-05-20" dA rfl rfl).1,
    (output_single_page tmplA pbA [pbB] "22" "Adeel Ahmed" "232201010"
      "BSCS-5-A" "2025-05-20" dA rfl rfl).2⟩

end Challan
